import Mathlib

/-!
# SDL_RecordingTest: device enumeration, capture session and WAV writer

A shallow embedding of `src/main.cpp` (`AudioDevice`, `GetAllDevices`,
`DeviceCapture`) and theorems about it.

Modelling conventions.
* A byte (`Uint8`) is a `Nat`; a byte sequence (`std::vector<Uint8>`, a C buffer,
  the content of a file) is a `List Nat`.
* C integer conversions are explicit: a value passed to a `Uint16`/`Uint32`
  parameter is reduced modulo `2^16`/`2^32`; `int` arithmetic is `Int`
  arithmetic wrapped to 32 bits two's complement, with C's truncating division.
* The host (SDL) is not part of the program. What it answers is a parameter of
  the model (`AudioHost`, whether the output file opens), and what the program
  asks of the audio subsystem is recorded as a list of `HostCall`s, in program
  order.
* Signed overflow of `int` is undefined in C++; it is modelled as wrap-around. No
  theorem below depends on a product that overflows.
* A write through a NULL `SDL_RWops*` is undefined in C++ (SDL dereferences the
  handle); it is modelled as ending the run with `Fault.nullHandle`.
* `std::mutex` is not modelled: every function is run to completion on its own.
-/

namespace SDLRecordingTest

/-! ## Host side: types and the calls the program makes -/

/-- The fields of SDL's `SDL_AudioSpec` that the program reads or sets
(`freq` is a C `int`, `format` a `Uint16`, `channels` a `Uint8`, `samples` a
`Uint16`). -/
structure SDL_AudioSpec where
  freq : Int
  format : Nat
  channels : Nat
  samples : Nat
  deriving DecidableEq, Repr

/-- The values of a spec lie in the ranges of their C types. -/
def SDL_AudioSpec.InRange (s : SDL_AudioSpec) : Prop :=
  -(2 : Int) ^ 31 ≤ s.freq ∧ s.freq < (2 : Int) ^ 31 ∧
    s.format < 2 ^ 16 ∧ s.channels < 2 ^ 8 ∧ s.samples < 2 ^ 16

instance (s : SDL_AudioSpec) : Decidable s.InRange := by
  unfold SDL_AudioSpec.InRange; infer_instance

/-- SDL's format word `AUDIO_S32` (`AUDIO_S32LSB`, 0x8020). -/
def AUDIO_S32 : Nat := 0x8020

/-- SDL's format word `AUDIO_S16` (`AUDIO_S16LSB`, 0x8010). -/
def AUDIO_S16 : Nat := 0x8010

/-- SDL's macro `SDL_AUDIO_BITSIZE(x)`, which is `x & SDL_AUDIO_MASK_BITSIZE`
with mask `0xFF`: the low 8 bits of the format word. -/
def SDL_AUDIO_BITSIZE (x : Nat) : Nat := x % 256

/-- A call the program makes to the host, with its arguments. -/
inductive HostCall where
  | SDL_OpenAudioDevice (device : String) (iscapture : Bool)
      (desired : SDL_AudioSpec) (allowed_changes : Nat)
  | SDL_PauseAudioDevice (dev : Nat) (pause_on : Bool)
  | SDL_CloseAudioDevice (dev : Nat)
  | printf (text : String)
  deriving DecidableEq, Repr

/-- What the host audio subsystem answers. -/
structure AudioHost where
  /-- `SDL_GetNumAudioDevices(iscapture)`, a C `int`. -/
  SDL_GetNumAudioDevices : Bool → Int
  /-- `SDL_GetAudioDeviceName(index, iscapture)`. -/
  SDL_GetAudioDeviceName : Int → Bool → String
  /-- `SDL_OpenAudioDevice(device, iscapture, desired, obtained, allowed_changes)`:
  the device id returned (0 on failure) and what is left in `*obtained`. -/
  SDL_OpenAudioDevice : String → Bool → SDL_AudioSpec → Nat → Nat × SDL_AudioSpec
  /-- `SDL_GetError()`. -/
  SDL_GetError : String

/-! ## Files (`SDL_RWops`) -/

/-- An open `SDL_RWops` on a file: the bytes written to it so far. -/
structure SDL_RWops where
  bytes : List Nat
  deriving DecidableEq, Repr

/-- How a run can end abnormally. -/
inductive Fault where
  /-- A NULL `SDL_RWops*` was handed to an SDL write, which dereferences it. -/
  | nullHandle
  deriving DecidableEq, Repr

/-- `SDL_RWFromFile(name, "w+b")`: NULL when the host cannot open the path,
else a handle on the file truncated to length 0. -/
def SDL_RWFromFile (canOpen : Bool) : Option SDL_RWops :=
  if canOpen then some ⟨[]⟩ else none

/-- `SDL_RWwrite(context, ptr, size, num)`: appends the first `size * num` bytes
at `ptr` to the file. It calls `context->write`, so a NULL context is a null
dereference. Short writes are not modelled. -/
def SDL_RWwrite (context : Option SDL_RWops) (ptr : List Nat) (size num : Nat) :
    Except Fault (Option SDL_RWops) :=
  match context with
  | none => Except.error Fault.nullHandle
  | some f => Except.ok (some ⟨f.bytes ++ ptr.take (size * num)⟩)

/-- The bytes of a `Uint16`, least significant first. -/
def bytesLE16 (value : Nat) : List Nat :=
  [value % 256, value / 256 % 256]

/-- The bytes of a `Uint32`, least significant first. -/
def bytesLE32 (value : Nat) : List Nat :=
  [value % 256, value / 256 % 256, value / 65536 % 256, value / 16777216 % 256]

/-- `SDL_WriteLE16(dst, value)`: the argument is converted to `Uint16`, then
written least significant byte first through `SDL_RWwrite`. -/
def SDL_WriteLE16 (dst : Option SDL_RWops) (value : Int) :
    Except Fault (Option SDL_RWops) :=
  SDL_RWwrite dst (bytesLE16 (value % 2 ^ 16).toNat) 2 1

/-- `SDL_WriteLE32(dst, value)`: the argument is converted to `Uint32`, then
written least significant byte first through `SDL_RWwrite`. -/
def SDL_WriteLE32 (dst : Option SDL_RWops) (value : Int) :
    Except Fault (Option SDL_RWops) :=
  SDL_RWwrite dst (bytesLE32 (value % 2 ^ 32).toNat) 4 1

/-- A C string literal as bytes (without the terminating NUL). -/
def cstr (s : String) : List Nat := s.toList.map Char.toNat

/-- The value of an `int` expression: wrapped to 32 bits, two's complement. -/
def wrapInt32 (x : Int) : Int := (x + 2 ^ 31) % 2 ^ 32 - 2 ^ 31

/-! ## `AudioDevice` and `GetAllDevices` -/

/-- `struct AudioDevice`. -/
structure AudioDevice where
  mName : String
  mFriendlyName : String
  mIsRecordingDevice : Bool
  deriving DecidableEq, Repr

/-- The constructor `AudioDevice(int deviceIndex, bool isRecordingDevice)`. -/
def AudioDevice.new (host : AudioHost) (deviceIndex : Int) (isRecordingDevice : Bool) :
    AudioDevice :=
  let mName := host.SDL_GetAudioDeviceName deviceIndex isRecordingDevice
  { mName := mName
    mIsRecordingDevice := isRecordingDevice
    mFriendlyName :=
      if isRecordingDevice then "Capture Device: " ++ mName
      else "Playback Device: " ++ mName }

/-- The loop `for (int i = 0; i < nDevices; i++) devices.emplace_back(i, kind)`,
entered with the given `i`; `fuel` bounds the number of iterations. -/
def emplaceLoop (host : AudioHost) (isRecordingDevice : Bool) (nDevices : Int) :
    Nat → Int → List AudioDevice → List AudioDevice
  | 0, _, devices => devices
  | fuel + 1, i, devices =>
    if i < nDevices then
      emplaceLoop host isRecordingDevice nDevices fuel (i + 1)
        (devices ++ [AudioDevice.new host i isRecordingDevice])
    else devices

/-- `GetAllDevices()`. Each loop runs at most `nDevices` times, which is the
fuel it is given. -/
def GetAllDevices (host : AudioHost) : List AudioDevice :=
  let devices : List AudioDevice := []
  let nDevices := host.SDL_GetNumAudioDevices false
  let devices := emplaceLoop host false nDevices nDevices.toNat 0 devices
  let nDevices := host.SDL_GetNumAudioDevices true
  let devices := emplaceLoop host true nDevices nDevices.toNat 0 devices
  devices

/-! ## `DeviceCapture` -/

/-- `struct DeviceCapture` (the mutex is not modelled). -/
structure DeviceCapture where
  mDeviceId : Nat
  mReceivedRecordingSpec : SDL_AudioSpec
  mBytes : List Nat
  deriving DecidableEq, Repr

/-- The spec the constructor asks for: `SDL_zero`, then 44100 Hz, `AUDIO_S32`,
2 channels, 4096 sample frames (`userdata` and `callback` are not modelled). -/
def desiredRecordingSpec : SDL_AudioSpec :=
  { freq := 44100, format := AUDIO_S32, channels := 2, samples := 4096 }

/-- The constructor `DeviceCapture(const AudioDevice&)`: the session it builds and
the host calls it makes. `mBytes` starts empty. -/
def DeviceCapture.new (host : AudioHost) (deviceToCapture : AudioDevice) :
    DeviceCapture × List HostCall :=
  let opened := host.SDL_OpenAudioDevice deviceToCapture.mName true desiredRecordingSpec 0
  let mDeviceId := opened.1
  let calls := [HostCall.SDL_OpenAudioDevice deviceToCapture.mName true desiredRecordingSpec 0]
  let calls :=
    if mDeviceId = 0 then
      calls ++ [HostCall.printf
        ("Failed to open recording device! SDL Error: " ++ host.SDL_GetError ++ "\n")]
    else calls
  let calls := calls ++ [HostCall.SDL_PauseAudioDevice mDeviceId false]
  ({ mDeviceId := mDeviceId, mReceivedRecordingSpec := opened.2, mBytes := [] }, calls)

/-- The body of the destructor `~DeviceCapture()`: the session is unchanged by
it; one host call is made. -/
def DeviceCapture.destroy (self : DeviceCapture) : DeviceCapture × List HostCall :=
  (self, [HostCall.SDL_CloseAudioDevice self.mDeviceId])

/-- `audioRecordingCallback(userdata, stream, len)` with `userdata` the session:
the first `len` bytes at `stream` are inserted at the end of `mBytes`. -/
def audioRecordingCallback (self : DeviceCapture) (stream : List Nat) (len : Nat) :
    DeviceCapture × List HostCall :=
  ({ self with mBytes := self.mBytes ++ stream.take len },
    [HostCall.printf ("Saving " ++ toString len ++ " bytes\n")])

/-- The host delivers the payloads one after the other, each with its length. -/
def deliverAll (self : DeviceCapture) (payloads : List (List Nat)) : DeviceCapture :=
  payloads.foldl (fun s p => (audioRecordingCallback s p p.length).1) self

/-- What a run of `write_wave_file` that returns leaves behind. -/
structure WaveResult where
  /-- Content of the file once closed, if a file was opened. -/
  file : Option (List Nat)
  /-- Text printed. -/
  printed : List String
  deriving DecidableEq, Repr

/-- `DeviceCapture::write_wave_file(name)`, given whether the host can open
`name` for writing and what `SDL_GetError()` answers. -/
def DeviceCapture.write_wave_file (self : DeviceCapture) (canOpen : Bool)
    (sdlError : String) : Except Fault WaveResult := do
  let fileBytes : List Nat := []
  let BitsPerSample : Int := SDL_AUDIO_BITSIZE self.mReceivedRecordingSpec.format
  let Channels : Int := self.mReceivedRecordingSpec.channels
  let file := SDL_RWFromFile canOpen
  let file ← SDL_RWwrite file (cstr "RIFF") 4 1
  let file ← SDL_WriteLE32 file (self.mBytes.length + 36)
  let file ← SDL_RWwrite file (cstr "WAVE") 4 1
  let file ← SDL_RWwrite file (cstr "fmt ") 4 1
  let file ← SDL_WriteLE32 file 16
  let file ← SDL_WriteLE16 file 1
  let file ← SDL_WriteLE16 file Channels
  let file ← SDL_WriteLE32 file self.mReceivedRecordingSpec.freq
  let file ← SDL_WriteLE32 file
    (Int.tdiv (wrapInt32 (wrapInt32 (self.mReceivedRecordingSpec.freq * BitsPerSample) * 2)) 8)
  let file ← SDL_WriteLE16 file (Int.tdiv (wrapInt32 (BitsPerSample * Channels)) 8)
  let file ← SDL_WriteLE16 file BitsPerSample
  let file ← SDL_RWwrite file (cstr "data") 4 1
  let file ← SDL_WriteLE32 file self.mBytes.length
  let file ← SDL_RWwrite file self.mBytes self.mBytes.length 1
  match file with
  | none =>
    pure { file := none, printed := ["Failed to open file! SDL Error: " ++ sdlError ++ "\n"] }
  | some _ =>
    let file ← SDL_RWwrite file fileBytes fileBytes.length 1
    -- SDL_RWclose(file)
    pure { file := file.map (fun f => f.bytes), printed := [] }

/-- Running the destructor body `k` times in a row on the same session: the
session left and all host calls made, in order. -/
def destroyTimes : Nat → DeviceCapture → DeviceCapture × List HostCall
  | 0, self => (self, [])
  | k + 1, self =>
    let first := DeviceCapture.destroy self
    let rest := destroyTimes k first.1
    (rest.1, first.2 ++ rest.2)

/-! ## Reading a file back -/

/-- Bytes `off .. off + len - 1` of a byte sequence. -/
def slice (bytes : List Nat) (off len : Nat) : List Nat := (bytes.drop off).take len

/-- The 16-bit value whose little-endian bytes are at `off`. -/
def readLE16 (bytes : List Nat) (off : Nat) : Nat :=
  bytes.getD off 0 + 256 * bytes.getD (off + 1) 0

/-- The 32-bit value whose little-endian bytes are at `off`. -/
def readLE32 (bytes : List Nat) (off : Nat) : Nat :=
  bytes.getD off 0 + 256 * bytes.getD (off + 1) 0 + 65536 * bytes.getD (off + 2) 0
    + 16777216 * bytes.getD (off + 3) 0

/-- The header fields a reader of the file recovers. -/
structure ParsedHeader where
  channels : Nat
  sampleRate : Nat
  bitsPerSample : Nat
  dataLength : Nat
  deriving DecidableEq, Repr

/-- Little-endian reads of the channel count at offset 22, the sample rate at
24, the bits per sample at 34 and the data-chunk length at 40. -/
def parseHeader (bytes : List Nat) : ParsedHeader :=
  { channels := readLE16 bytes 22
    sampleRate := readLE32 bytes 24
    bitsPerSample := readLE16 bytes 34
    dataLength := readLE32 bytes 40 }

/-! ## Concrete inputs -/

/-- A session granted 48000 Hz, 32-bit, stereo, holding three bytes. -/
def sampleSession : DeviceCapture :=
  { mDeviceId := 2
    mReceivedRecordingSpec := { freq := 48000, format := AUDIO_S32, channels := 2, samples := 4096 }
    mBytes := [1, 2, 3] }

/-- A session granted 44100 Hz, 16-bit, mono, with an empty buffer. -/
def monoSession : DeviceCapture :=
  { mDeviceId := 2
    mReceivedRecordingSpec := { freq := 44100, format := AUDIO_S16, channels := 1, samples := 4096 }
    mBytes := [] }

/-- A session granted 44100 Hz, 16-bit, stereo, whose buffer holds `2^32` zero
bytes (about 6 h 45 min of audio at this format). -/
def hugeSession : DeviceCapture :=
  { mDeviceId := 2
    mReceivedRecordingSpec := { freq := 44100, format := AUDIO_S16, channels := 2, samples := 4096 }
    mBytes := List.replicate (2 ^ 32) 0 }

/-- A session granted a format word whose low byte is 12: 12 bits per sample,
mono, 44100 Hz, with an empty buffer. -/
def twelveBitSession : DeviceCapture :=
  { mDeviceId := 2
    mReceivedRecordingSpec := { freq := 44100, format := 0x800C, channels := 1, samples := 4096 }
    mBytes := [] }

/-- A host with two playback devices and one capture device, which opens every
device it is asked for with id 2 and the format 48000 Hz, 16-bit, mono. -/
def sampleHost : AudioHost :=
  { SDL_GetNumAudioDevices := fun iscapture => if iscapture then 1 else 2
    SDL_GetAudioDeviceName := fun index iscapture =>
      if iscapture then "Mic"
      else if index = 0 then "Speakers" else "Headphones"
    SDL_OpenAudioDevice := fun _ _ _ _ =>
      (2, { freq := 48000, format := AUDIO_S16, channels := 1, samples := 4096 })
    SDL_GetError := "" }

/-- A host that refuses every open: id 0, `*obtained` left zeroed, and the
diagnostic "Device busy". -/
def refusingHost : AudioHost :=
  { SDL_GetNumAudioDevices := fun iscapture => if iscapture then 1 else 2
    SDL_GetAudioDeviceName := fun _ _ => "Mic"
    SDL_OpenAudioDevice := fun _ _ _ _ =>
      (0, { freq := 0, format := 0, channels := 0, samples := 0 })
    SDL_GetError := "Device busy" }

/-- The capture device of `sampleHost`. -/
def micDevice : AudioDevice := AudioDevice.new sampleHost 0 true

/-! ## Lemmas on the byte-level helpers -/

theorem cstr_RIFF : cstr "RIFF" = [82, 73, 70, 70] := by decide

theorem cstr_WAVE : cstr "WAVE" = [87, 65, 86, 69] := by decide

theorem cstr_fmt : cstr "fmt " = [102, 109, 116, 32] := by decide

theorem cstr_data : cstr "data" = [100, 97, 116, 97] := by decide

theorem decodeLE32 (v : Nat) (h : v < 2 ^ 32) :
    v % 256 + 256 * (v / 256 % 256) + 65536 * (v / 65536 % 256)
      + 16777216 * (v / 16777216 % 256) = v := by
  omega

theorem decodeLE16 (v : Nat) (h : v < 2 ^ 16) :
    v % 256 + 256 * (v / 256 % 256) = v := by
  omega

/-- The block-align expression `(BitsPerSample * Channels) / 8`, once converted
to `Uint16`, is the natural-number quotient: nothing overflows. -/
theorem blockAlign_eq (bits channels : Nat) (hb : bits < 256) (hc : channels < 256) :
    ((Int.tdiv (wrapInt32 ((bits : Int) * (channels : Int))) 8) % 2 ^ 16).toNat
      = bits * channels / 8 := by
  have hp : bits * channels ≤ 255 * 255 := Nat.mul_le_mul (by omega) (by omega)
  have hw : wrapInt32 ((bits : Int) * (channels : Int)) = ((bits * channels : Nat) : Int) := by
    unfold wrapInt32
    push_cast
    generalize hq : (bits : Int) * (channels : Int) = q
    have : q = ((bits * channels : Nat) : Int) := by rw [← hq]; push_cast; rfl
    omega
  rw [hw, Int.tdiv_eq_ediv (Int.ofNat_nonneg _) (by decide)]
  omega

/-! ## What `write_wave_file` leaves in an opened file -/

/-- With the file opened, `write_wave_file` returns normally, prints nothing and
leaves exactly the thirteen header writes followed by the buffer. -/
theorem write_wave_file_open (self : DeviceCapture) (e : String) :
    self.write_wave_file true e = Except.ok
      { file := some (cstr "RIFF"
          ++ bytesLE32 (((self.mBytes.length : Int) + 36) % 2 ^ 32).toNat
          ++ cstr "WAVE" ++ cstr "fmt " ++ bytesLE32 16 ++ bytesLE16 1
          ++ bytesLE16 ((self.mReceivedRecordingSpec.channels : Int) % 2 ^ 16).toNat
          ++ bytesLE32 (self.mReceivedRecordingSpec.freq % 2 ^ 32).toNat
          ++ bytesLE32 ((Int.tdiv (wrapInt32 (wrapInt32 (self.mReceivedRecordingSpec.freq *
                (SDL_AUDIO_BITSIZE self.mReceivedRecordingSpec.format : Int)) * 2)) 8)
                % 2 ^ 32).toNat
          ++ bytesLE16 ((Int.tdiv (wrapInt32
                ((SDL_AUDIO_BITSIZE self.mReceivedRecordingSpec.format : Int)
                  * (self.mReceivedRecordingSpec.channels : Int))) 8) % 2 ^ 16).toNat
          ++ bytesLE16 ((SDL_AUDIO_BITSIZE self.mReceivedRecordingSpec.format : Int)
                % 2 ^ 16).toNat
          ++ cstr "data" ++ bytesLE32 ((self.mBytes.length : Int) % 2 ^ 32).toNat
          ++ self.mBytes)
        printed := [] } := by
  simp only [DeviceCapture.write_wave_file, SDL_RWFromFile, SDL_RWwrite, SDL_WriteLE32,
    SDL_WriteLE16, bind, Except.bind, pure, Except.pure, if_true, cstr_RIFF, cstr_WAVE,
    cstr_fmt, cstr_data, bytesLE32, bytesLE16, Option.map]
  simp

/-- What a reader parses from the file `write_wave_file` leaves, for any session:
each field is the session's value reduced to the width of its header field. -/
theorem parseHeader_write_wave_file (self : DeviceCapture) (e : String) (n : Nat)
    (hn : self.mBytes.length = n) :
    ∃ out : List Nat,
      self.write_wave_file true e = Except.ok { file := some out, printed := [] } ∧
      parseHeader out =
        { channels := self.mReceivedRecordingSpec.channels % 2 ^ 16
          sampleRate := (self.mReceivedRecordingSpec.freq % 2 ^ 32).toNat
          bitsPerSample := SDL_AUDIO_BITSIZE self.mReceivedRecordingSpec.format
          dataLength := n % 2 ^ 32 } := by
  subst hn
  refine ⟨_, write_wave_file_open self e, ?_⟩
  have e1 : ((self.mReceivedRecordingSpec.channels : Int) % 2 ^ 16).toNat
      = self.mReceivedRecordingSpec.channels % 2 ^ 16 := by omega
  have e4 : ((SDL_AUDIO_BITSIZE self.mReceivedRecordingSpec.format : Int) % 2 ^ 16).toNat
      = self.mReceivedRecordingSpec.format % 256 := by
    unfold SDL_AUDIO_BITSIZE; omega
  have e5 : ((self.mBytes.length : Int) % 2 ^ 32).toNat = self.mBytes.length % 2 ^ 32 := by
    omega
  have hpos : 0 ≤ self.mReceivedRecordingSpec.freq % 2 ^ 32 :=
    Int.emod_nonneg _ (by decide)
  have hlt : self.mReceivedRecordingSpec.freq % 2 ^ 32 < 2 ^ 32 :=
    Int.emod_lt_of_pos _ (by decide)
  have d1 := decodeLE16 (self.mReceivedRecordingSpec.channels % 2 ^ 16)
    (Nat.mod_lt _ (by decide))
  have d2 := decodeLE32 (self.mReceivedRecordingSpec.freq % 2 ^ 32).toNat (by omega)
  have d4 := decodeLE16 (self.mReceivedRecordingSpec.format % 256) (by omega)
  have d5 := decodeLE32 (self.mBytes.length % 2 ^ 32) (Nat.mod_lt _ (by decide))
  rw [e1, e4, e5]
  simp only [cstr_RIFF, cstr_WAVE, cstr_fmt, cstr_data, bytesLE32, bytesLE16, parseHeader,
    readLE32, readLE16, SDL_AUDIO_BITSIZE, ParsedHeader.mk.injEq]
  refine ⟨?_, ?_, ?_, ?_⟩
  · simp; exact d1
  · simp; exact d2
  · simp
  · simp; exact d5

/-! ## The WAV writer -/

/-- C1. For every buffer of `N` bytes with `N + 36 < 2^32` (the empty buffer
included) and every granted format, the file `write_wave_file` leaves when the
open succeeds is `44 + N` bytes long; bytes 0..3 are "RIFF", bytes 4..7 are
`N + 36` little-endian, bytes 8..11 are "WAVE", bytes 12..15 are "fmt ", bytes
36..39 are "data", bytes 40..43 are `N` little-endian, and everything from byte
44 on is the buffer itself, so nothing follows the data. For `N = 0` the file is
the 44-byte header with data length 0. -/
theorem write_wave_file_framing (self : DeviceCapture) (sdlError : String)
    (hN : self.mBytes.length + 36 < 2 ^ 32) :
    ∃ out : List Nat,
      self.write_wave_file true sdlError = Except.ok { file := some out, printed := [] } ∧
      out.length = 44 + self.mBytes.length ∧
      slice out 0 4 = cstr "RIFF" ∧
      slice out 4 4 = bytesLE32 (self.mBytes.length + 36) ∧
      readLE32 out 4 = self.mBytes.length + 36 ∧
      slice out 8 4 = cstr "WAVE" ∧
      slice out 12 4 = cstr "fmt " ∧
      slice out 36 4 = cstr "data" ∧
      slice out 40 4 = bytesLE32 self.mBytes.length ∧
      readLE32 out 40 = self.mBytes.length ∧
      out.drop 44 = self.mBytes ∧
      (self.mBytes = [] → out.length = 44 ∧ readLE32 out 40 = 0) := by
  refine ⟨_, write_wave_file_open self sdlError, ?_⟩
  have h1 : (((self.mBytes.length : Int) + 36) % 2 ^ 32).toNat = self.mBytes.length + 36 := by
    omega
  have h2 : ((self.mBytes.length : Int) % 2 ^ 32).toNat = self.mBytes.length := by omega
  rw [h1, h2]
  have d1 := decodeLE32 (self.mBytes.length + 36) hN
  have d2 := decodeLE32 self.mBytes.length (by omega)
  simp only [cstr_RIFF, cstr_WAVE, cstr_fmt, cstr_data, bytesLE32, bytesLE16, slice, readLE32]
  refine ⟨?_, ?_, ?_, ?_, ?_, ?_, ?_, ?_, ?_, ?_, ?_⟩
  · simp; omega
  · simp
  · simp
  · simpa using d1
  · simp
  · simp
  · simp
  · simp
  · simpa using d2
  · simp
  · intro h; simp [h]

/-- C1 at a three-byte buffer. -/
theorem write_wave_file_framing_witness :
    sampleSession.mBytes.length + 36 < 2 ^ 32 ∧
    ∃ out : List Nat,
      sampleSession.write_wave_file true "" = Except.ok { file := some out, printed := [] } ∧
      out.length = 44 + sampleSession.mBytes.length ∧
      slice out 0 4 = cstr "RIFF" ∧
      slice out 4 4 = bytesLE32 (sampleSession.mBytes.length + 36) ∧
      readLE32 out 4 = sampleSession.mBytes.length + 36 ∧
      slice out 8 4 = cstr "WAVE" ∧
      slice out 12 4 = cstr "fmt " ∧
      slice out 36 4 = cstr "data" ∧
      slice out 40 4 = bytesLE32 sampleSession.mBytes.length ∧
      readLE32 out 40 = sampleSession.mBytes.length ∧
      out.drop 44 = sampleSession.mBytes ∧
      (sampleSession.mBytes = [] → out.length = 44 ∧ readLE32 out 40 = 0) :=
  ⟨by decide, write_wave_file_framing sampleSession "" (by decide)⟩

/-- C2. For a granted mono 44100 Hz, 16-bit stream the byte-rate field (bytes
28..31) that `write_wave_file` writes is 176400, the value for two channels,
and not `44100 * 16 * 1 / 8 = 88200`. -/
theorem write_wave_file_byte_rate_mono :
    ∃ out : List Nat,
      monoSession.write_wave_file true "" = Except.ok { file := some out, printed := [] } ∧
      slice out 28 4 = bytesLE32 176400 ∧
      readLE32 out 28 = 176400 ∧
      readLE32 out 28 ≠ 44100 * 16 * monoSession.mReceivedRecordingSpec.channels / 8 ∧
      44100 * 16 * monoSession.mReceivedRecordingSpec.channels / 8 = 88200 := by
  refine ⟨_, rfl, ?_, ?_, ?_, ?_⟩ <;> decide

/-- C3. For every granted format stored in `mReceivedRecordingSpec` (values in
the ranges of their C types, sample rate not negative), the fmt chunk written
has, little-endian: bytes 16..19 = 16, bytes 20..21 = 1, bytes 22..23 = the
granted channel count, bytes 24..27 = the granted sample rate, bytes 32..33 =
granted bits * granted channels / 8, bytes 34..35 = the granted bits per sample,
which is the low 8 bits of the granted format word. The requested format does
not occur. -/
theorem write_wave_file_fmt_chunk (self : DeviceCapture) (sdlError : String)
    (hr : self.mReceivedRecordingSpec.InRange) (hf : 0 ≤ self.mReceivedRecordingSpec.freq) :
    ∃ out : List Nat,
      self.write_wave_file true sdlError = Except.ok { file := some out, printed := [] } ∧
      slice out 16 4 = bytesLE32 16 ∧ readLE32 out 16 = 16 ∧
      slice out 20 2 = bytesLE16 1 ∧ readLE16 out 20 = 1 ∧
      slice out 22 2 = bytesLE16 self.mReceivedRecordingSpec.channels ∧
      readLE16 out 22 = self.mReceivedRecordingSpec.channels ∧
      slice out 24 4 = bytesLE32 self.mReceivedRecordingSpec.freq.toNat ∧
      (readLE32 out 24 : Int) = self.mReceivedRecordingSpec.freq ∧
      slice out 32 2 = bytesLE16 (self.mReceivedRecordingSpec.format % 256
        * self.mReceivedRecordingSpec.channels / 8) ∧
      readLE16 out 32 = self.mReceivedRecordingSpec.format % 256
        * self.mReceivedRecordingSpec.channels / 8 ∧
      slice out 34 2 = bytesLE16 (self.mReceivedRecordingSpec.format % 256) ∧
      readLE16 out 34 = self.mReceivedRecordingSpec.format % 256 := by
  refine ⟨_, write_wave_file_open self sdlError, ?_⟩
  obtain ⟨hlo, hhi, hfmt, hch, -⟩ := hr
  have hbits : self.mReceivedRecordingSpec.format % 256 < 256 := Nat.mod_lt _ (by decide)
  have e1 : ((self.mReceivedRecordingSpec.channels : Int) % 2 ^ 16).toNat
      = self.mReceivedRecordingSpec.channels := by omega
  have e2 : (self.mReceivedRecordingSpec.freq % 2 ^ 32).toNat
      = self.mReceivedRecordingSpec.freq.toNat := by omega
  have e3 := blockAlign_eq (self.mReceivedRecordingSpec.format % 256)
    self.mReceivedRecordingSpec.channels hbits (by omega)
  have e4 : (((self.mReceivedRecordingSpec.format % 256 : Nat) : Int) % 2 ^ 16).toNat
      = self.mReceivedRecordingSpec.format % 256 := by omega
  have hp : self.mReceivedRecordingSpec.format % 256 * self.mReceivedRecordingSpec.channels
      ≤ 255 * 255 := Nat.mul_le_mul (by omega) (by omega)
  have d1 := decodeLE16 self.mReceivedRecordingSpec.channels (by omega)
  have d3 := decodeLE16 (self.mReceivedRecordingSpec.format % 256
    * self.mReceivedRecordingSpec.channels / 8) (by omega)
  simp only [SDL_AUDIO_BITSIZE] at *
  rw [e1, e2, e3, e4]
  simp only [cstr_RIFF, cstr_WAVE, cstr_fmt, cstr_data, bytesLE32, bytesLE16, slice, readLE32,
    readLE16]
  refine ⟨?_, ?_, ?_, ?_, ?_, ?_, ?_, ?_, ?_, ?_, ?_, ?_⟩
  · simp
  · simp
  · simp
  · simp
  · simp
  · simp; exact d1
  · simp
  · simp only [List.drop, List.getD_cons_zero, List.getD_cons_succ, List.cons_append,
      List.nil_append, List.getD_eq_getElem?_getD, List.getElem?_cons_succ,
      List.getElem?_cons_zero, Option.getD_some]
    omega
  · simp
  · simp; exact d3
  · simp
  · simp

/-- C3 at a grant of 48000 Hz where 44100 Hz was requested: the sample-rate
field reads 48000. -/
theorem write_wave_file_fmt_chunk_witness :
    sampleSession.mReceivedRecordingSpec.InRange ∧
    0 ≤ sampleSession.mReceivedRecordingSpec.freq ∧
    desiredRecordingSpec.freq = 44100 ∧
    ∃ out : List Nat,
      sampleSession.write_wave_file true "" = Except.ok { file := some out, printed := [] } ∧
      (readLE32 out 24 : Int) = 48000 ∧ readLE16 out 22 = 2 ∧ readLE16 out 32 = 8 ∧
      readLE16 out 34 = 32 := by
  obtain ⟨out, h, -, -, -, -, -, hc, -, hs, -, ha, -, hb⟩ :=
    write_wave_file_fmt_chunk sampleSession "" (by decide) (by decide)
  exact ⟨by decide, by decide, rfl, out, h, hs, hc, ha, hb⟩

/-- C4, refuted as stated. With a buffer of `2^32` bytes the data-chunk length
parsed from the file is 0, not the buffer's length. -/
theorem header_roundtrip_fails_at_4GiB :
    ∃ out : List Nat,
      hugeSession.write_wave_file true "" = Except.ok { file := some out, printed := [] } ∧
      hugeSession.mBytes.length = 2 ^ 32 ∧
      (parseHeader out).dataLength = 0 ∧
      (parseHeader out).dataLength ≠ hugeSession.mBytes.length := by
  have hlen : hugeSession.mBytes.length = 2 ^ 32 := List.length_replicate _ _
  obtain ⟨out, h, hp⟩ := parseHeader_write_wave_file hugeSession "" (2 ^ 32) hlen
  have h0 : (parseHeader out).dataLength = 0 := by rw [hp]; decide
  refine ⟨out, h, hlen, h0, ?_⟩
  rw [h0, hlen]; decide

/-- C4, amended. For every buffer of `N < 2^32` bytes and every stream format
(values in the ranges of their C types, sample rate not negative), parsing the
header of the file `write_wave_file` leaves recovers the format's channel
count, sample rate and bits per sample, and a data-chunk length equal to `N`. -/
theorem header_roundtrip (self : DeviceCapture) (sdlError : String)
    (hN : self.mBytes.length < 2 ^ 32)
    (hr : self.mReceivedRecordingSpec.InRange) (hf : 0 ≤ self.mReceivedRecordingSpec.freq) :
    ∃ out : List Nat,
      self.write_wave_file true sdlError = Except.ok { file := some out, printed := [] } ∧
      (parseHeader out).channels = self.mReceivedRecordingSpec.channels ∧
      ((parseHeader out).sampleRate : Int) = self.mReceivedRecordingSpec.freq ∧
      (parseHeader out).bitsPerSample = SDL_AUDIO_BITSIZE self.mReceivedRecordingSpec.format ∧
      (parseHeader out).dataLength = self.mBytes.length := by
  obtain ⟨out, h, hp⟩ := parseHeader_write_wave_file self sdlError _ rfl
  obtain ⟨hlo, hhi, hfmt, hch, -⟩ := hr
  refine ⟨out, h, ?_, ?_, ?_, ?_⟩
  · rw [hp]; show self.mReceivedRecordingSpec.channels % 2 ^ 16 = _; omega
  · rw [hp]; show (((self.mReceivedRecordingSpec.freq % 2 ^ 32).toNat : Nat) : Int) = _; omega
  · rw [hp]
  · rw [hp]; show self.mBytes.length % 2 ^ 32 = _; omega

/-- C4 amended, at a three-byte buffer granted 48000 Hz, 32-bit, stereo. -/
theorem header_roundtrip_witness :
    sampleSession.mBytes.length < 2 ^ 32 ∧
    sampleSession.mReceivedRecordingSpec.InRange ∧
    0 ≤ sampleSession.mReceivedRecordingSpec.freq ∧
    ∃ out : List Nat,
      sampleSession.write_wave_file true "" = Except.ok { file := some out, printed := [] } ∧
      (parseHeader out).channels = sampleSession.mReceivedRecordingSpec.channels ∧
      ((parseHeader out).sampleRate : Int) = sampleSession.mReceivedRecordingSpec.freq ∧
      (parseHeader out).bitsPerSample
        = SDL_AUDIO_BITSIZE sampleSession.mReceivedRecordingSpec.format ∧
      (parseHeader out).dataLength = sampleSession.mBytes.length :=
  ⟨by decide, by decide, by decide,
    header_roundtrip sampleSession "" (by decide) (by decide) (by decide)⟩

/-- C7. When the destination cannot be opened, `write_wave_file` hands the NULL
handle to its first header write and faults there, for every session: its NULL
check, which would print the diagnostic and return, is never reached. -/
theorem write_wave_file_unopened_faults (self : DeviceCapture) (sdlError : String) :
    SDL_RWFromFile false = none ∧
    SDL_RWwrite (SDL_RWFromFile false) (cstr "RIFF") 4 1 = Except.error Fault.nullHandle ∧
    self.write_wave_file false sdlError = Except.error Fault.nullHandle :=
  ⟨rfl, rfl, rfl⟩

/-- C8, refuted as stated. A granted format of 12 bits per sample is not
rejected: `write_wave_file` returns normally and leaves a 44-byte header whose
bits-per-sample field reads 12 and whose block-align field reads 1. -/
theorem write_wave_file_accepts_12_bits :
    SDL_AUDIO_BITSIZE twelveBitSession.mReceivedRecordingSpec.format = 12 ∧
    12 % 8 ≠ 0 ∧
    ∃ out : List Nat,
      twelveBitSession.write_wave_file true ""
        = Except.ok { file := some out, printed := [] } ∧
      out.length = 44 ∧ readLE16 out 34 = 12 ∧ readLE16 out 32 = 1 := by
  refine ⟨by decide, by decide, _, rfl, ?_, ?_, ?_⟩ <;> decide

/-- C8, amended. `write_wave_file` makes no check of the bits per sample: for
every granted format, a multiple of 8 or not, with the file opened it returns
normally having written the 44-byte header, whose bits-per-sample field holds
the granted bits, followed by the buffer. -/
theorem write_wave_file_no_format_check (self : DeviceCapture) (sdlError : String) :
    ∃ out : List Nat,
      self.write_wave_file true sdlError = Except.ok { file := some out, printed := [] } ∧
      out.length = 44 + self.mBytes.length ∧
      slice out 34 2 = bytesLE16 (SDL_AUDIO_BITSIZE self.mReceivedRecordingSpec.format) ∧
      readLE16 out 34 = SDL_AUDIO_BITSIZE self.mReceivedRecordingSpec.format ∧
      out.drop 44 = self.mBytes := by
  refine ⟨_, write_wave_file_open self sdlError, ?_⟩
  have e4 : ((SDL_AUDIO_BITSIZE self.mReceivedRecordingSpec.format : Int) % 2 ^ 16).toNat
      = SDL_AUDIO_BITSIZE self.mReceivedRecordingSpec.format := by
    unfold SDL_AUDIO_BITSIZE; omega
  have d4 := decodeLE16 (SDL_AUDIO_BITSIZE self.mReceivedRecordingSpec.format)
    (by unfold SDL_AUDIO_BITSIZE; omega)
  rw [e4]
  simp only [cstr_RIFF, cstr_WAVE, cstr_fmt, cstr_data, bytesLE32, bytesLE16, slice, readLE16]
  refine ⟨?_, ?_, ?_, ?_⟩
  · simp; omega
  · simp
  · simp; exact d4
  · simp

/-! ## The delivery callback -/

theorem deliverAll_mBytes (payloads : List (List Nat)) (self : DeviceCapture) :
    (deliverAll self payloads).mBytes = self.mBytes ++ payloads.flatten := by
  induction payloads generalizing self with
  | nil => simp [deliverAll]
  | cons p ps ih =>
    have step : deliverAll self (p :: ps)
        = deliverAll (audioRecordingCallback self p p.length).1 ps := rfl
    rw [step, ih]
    simp [audioRecordingCallback]

/-- C5. For every session holding `B` and every finite sequence of callback
invocations with payloads `P1, ..., Pn`, the buffer afterwards is
`B ++ P1 ++ ... ++ Pn`. One invocation keeps the previous buffer as the leading
part of the new one and grows its length by exactly the payload length; and
`P1, P2, P3` delivered to a freshly constructed session leave
`P1 ++ P2 ++ P3`. -/
theorem deliverAll_order_preserved (self : DeviceCapture) (payloads : List (List Nat))
    (host : AudioHost) (device : AudioDevice) (P P1 P2 P3 : List Nat) :
    (deliverAll self payloads).mBytes = self.mBytes ++ payloads.flatten ∧
    (audioRecordingCallback self P P.length).1.mBytes = self.mBytes ++ P ∧
    (audioRecordingCallback self P P.length).1.mBytes.take self.mBytes.length = self.mBytes ∧
    (audioRecordingCallback self P P.length).1.mBytes.length = self.mBytes.length + P.length ∧
    (deliverAll (DeviceCapture.new host device).1 [P1, P2, P3]).mBytes = P1 ++ P2 ++ P3 := by
  refine ⟨deliverAll_mBytes payloads self, ?_, ?_, ?_, ?_⟩
  · simp [audioRecordingCallback]
  · simp [audioRecordingCallback]
  · simp [audioRecordingCallback]
  · rw [deliverAll_mBytes]
    simp [DeviceCapture.new]

/-! ## Device enumeration -/

theorem emplaceLoop_eq (host : AudioHost) (isRecordingDevice : Bool) (n : Nat) :
    ∀ (m i : Nat) (devices : List AudioDevice), i + m = n →
      emplaceLoop host isRecordingDevice (n : Int) m (i : Int) devices
        = devices ++ (List.range m).map
            (fun (k : Nat) => AudioDevice.new host ((i + k : Nat) : Int) isRecordingDevice) := by
  intro m
  induction m with
  | zero => intro i devices _; simp [emplaceLoop]
  | succ m ih =>
    intro i devices h
    have hlt : (i : Int) < (n : Int) := by omega
    have hcast : (i : Int) + 1 = ((i + 1 : Nat) : Int) := by push_cast; rfl
    rw [emplaceLoop, if_pos hlt, hcast, ih (i + 1) _ (by omega)]
    rw [List.range_succ_eq_map, List.map_cons, List.map_map]
    simp only [List.append_assoc, List.singleton_append, Nat.add_zero]
    congr 2
    apply List.map_congr_left
    intro k _
    simp only [Function.comp]
    congr 2
    omega

theorem GetAllDevices_eq (host : AudioHost) (p c : Nat)
    (hp : host.SDL_GetNumAudioDevices false = (p : Int))
    (hc : host.SDL_GetNumAudioDevices true = (c : Int)) :
    GetAllDevices host
      = (List.range p).map (fun (i : Nat) => AudioDevice.new host (i : Int) false)
        ++ (List.range c).map (fun (j : Nat) => AudioDevice.new host (j : Int) true) := by
  unfold GetAllDevices
  simp only [hp, hc, Int.toNat_ofNat]
  have h1 := emplaceLoop_eq host false p p 0 [] (by omega)
  have h2 := emplaceLoop_eq host true c c 0
    ((List.range p).map (fun (i : Nat) => AudioDevice.new host (i : Int) false)) (by omega)
  simp only [Nat.zero_add, List.nil_append, Nat.cast_zero] at h1 h2
  rw [h1, h2]

/-- C6. For every host reporting `p` playback devices and `c` capture devices,
`GetAllDevices` returns exactly `p + c` descriptors; for every `i < p` element
`i` is the playback device with host index `i` (not a recording device, label
"Playback Device: " followed by its name), and for every `j < c` element
`p + j` is the capture device with host index `j` (a recording device, label
"Capture Device: " followed by its name), the name being the one the host
reports for that kind and index. -/
theorem GetAllDevices_layout (host : AudioHost) (p c : Nat)
    (hp : host.SDL_GetNumAudioDevices false = (p : Int))
    (hc : host.SDL_GetNumAudioDevices true = (c : Int)) :
    (GetAllDevices host).length = p + c ∧
    (∀ i, i < p → (GetAllDevices host)[i]? = some
      { mName := host.SDL_GetAudioDeviceName (i : Int) false
        mFriendlyName := "Playback Device: " ++ host.SDL_GetAudioDeviceName (i : Int) false
        mIsRecordingDevice := false }) ∧
    (∀ j, j < c → (GetAllDevices host)[p + j]? = some
      { mName := host.SDL_GetAudioDeviceName (j : Int) true
        mFriendlyName := "Capture Device: " ++ host.SDL_GetAudioDeviceName (j : Int) true
        mIsRecordingDevice := true }) := by
  rw [GetAllDevices_eq host p c hp hc]
  refine ⟨by simp, ?_, ?_⟩
  · intro i hi
    rw [List.getElem?_append_left (by simpa using hi)]
    simp [hi, AudioDevice.new]
  · intro j hj
    rw [List.getElem?_append_right (by simp)]
    simp [hj, AudioDevice.new]

/-- C6 at a host with two playback devices and one capture device. -/
theorem GetAllDevices_layout_witness :
    sampleHost.SDL_GetNumAudioDevices false = ((2 : Nat) : Int) ∧
    sampleHost.SDL_GetNumAudioDevices true = ((1 : Nat) : Int) ∧
    (GetAllDevices sampleHost).length = 2 + 1 ∧
    (∀ i, i < 2 → (GetAllDevices sampleHost)[i]? = some
      { mName := sampleHost.SDL_GetAudioDeviceName (i : Int) false
        mFriendlyName := "Playback Device: " ++ sampleHost.SDL_GetAudioDeviceName (i : Int) false
        mIsRecordingDevice := false }) ∧
    (∀ j, j < 1 → (GetAllDevices sampleHost)[2 + j]? = some
      { mName := sampleHost.SDL_GetAudioDeviceName (j : Int) true
        mFriendlyName := "Capture Device: " ++ sampleHost.SDL_GetAudioDeviceName (j : Int) true
        mIsRecordingDevice := true }) :=
  ⟨rfl, rfl, GetAllDevices_layout sampleHost 2 1 rfl rfl⟩

/-! ## Opening and closing a session -/

/-- C9, refuted as stated. When the host refuses the open (device id 0), the
constructor still builds a session, holding id 0, and still unpauses: its last
host call is `SDL_PauseAudioDevice(0, SDL_FALSE)`. -/
theorem DeviceCapture_new_refused_still_constructs :
    (refusingHost.SDL_OpenAudioDevice micDevice.mName true desiredRecordingSpec 0).1 = 0 ∧
    (DeviceCapture.new refusingHost micDevice).1
      = { mDeviceId := 0
          mReceivedRecordingSpec := { freq := 0, format := 0, channels := 0, samples := 0 }
          mBytes := [] } ∧
    (DeviceCapture.new refusingHost micDevice).2
      = [HostCall.SDL_OpenAudioDevice "Mic" true desiredRecordingSpec 0,
          HostCall.printf "Failed to open recording device! SDL Error: Device busy\n",
          HostCall.SDL_PauseAudioDevice 0 false] := by
  refine ⟨rfl, ?_, ?_⟩ <;> decide

/-- C9, amended. Whatever the host answers to the open, the constructor builds a
session holding the returned device id and the granted spec with an empty
buffer, and unpauses that id as its last host call. When the id is 0 it first
prints "Failed to open recording device! SDL Error: " followed by the host's
diagnostic; when the id is not 0 it prints nothing. -/
theorem DeviceCapture_new_behaviour (host : AudioHost) (device : AudioDevice) :
    (DeviceCapture.new host device).1
      = { mDeviceId := (host.SDL_OpenAudioDevice device.mName true desiredRecordingSpec 0).1
          mReceivedRecordingSpec :=
            (host.SDL_OpenAudioDevice device.mName true desiredRecordingSpec 0).2
          mBytes := [] } ∧
    (DeviceCapture.new host device).2
      = if (host.SDL_OpenAudioDevice device.mName true desiredRecordingSpec 0).1 = 0 then
          [HostCall.SDL_OpenAudioDevice device.mName true desiredRecordingSpec 0,
            HostCall.printf
              ("Failed to open recording device! SDL Error: " ++ host.SDL_GetError ++ "\n"),
            HostCall.SDL_PauseAudioDevice 0 false]
        else
          [HostCall.SDL_OpenAudioDevice device.mName true desiredRecordingSpec 0,
            HostCall.SDL_PauseAudioDevice
              (host.SDL_OpenAudioDevice device.mName true desiredRecordingSpec 0).1 false] := by
  refine ⟨rfl, ?_⟩
  unfold DeviceCapture.new
  by_cases h : (host.SDL_OpenAudioDevice device.mName true desiredRecordingSpec 0).1 = 0
  · simp [h]
  · simp [h]

/-- C10, refuted as stated. Running the destructor body twice on a session
releases its device id to the host twice, which is not what running it once
does. -/
theorem destroy_twice_releases_twice :
    (destroyTimes 2 sampleSession).2
      = [HostCall.SDL_CloseAudioDevice 2, HostCall.SDL_CloseAudioDevice 2] ∧
    (destroyTimes 1 sampleSession).2 = [HostCall.SDL_CloseAudioDevice 2] ∧
    (destroyTimes 2 sampleSession).2 ≠ (destroyTimes 1 sampleSession).2 := by
  refine ⟨?_, ?_, ?_⟩ <;> decide

/-- C10, amended. One run of the destructor body releases `mDeviceId` to the
host exactly once and leaves the session, `mDeviceId` included, as it was; `k`
runs in a row release the same id `k` times. -/
theorem destroyTimes_releases (k : Nat) (self : DeviceCapture) :
    DeviceCapture.destroy self = (self, [HostCall.SDL_CloseAudioDevice self.mDeviceId]) ∧
    (destroyTimes k self).1 = self ∧
    (destroyTimes k self).2
      = List.replicate k (HostCall.SDL_CloseAudioDevice self.mDeviceId) := by
  refine ⟨rfl, ?_, ?_⟩
  · induction k with
    | zero => rfl
    | succ k ih => simpa [destroyTimes, DeviceCapture.destroy] using ih
  · induction k with
    | zero => rfl
    | succ k ih =>
      simp only [destroyTimes, DeviceCapture.destroy, List.replicate_succ, List.singleton_append]
      rw [ih]

end SDLRecordingTest
